import Mathlib

/-!
Shallow embedding of the SecureFlow behavioral authentication engine
(`sf_ai_model/model/secureFlow.py`), covering the `BehavioralAuthModel`
class: the feature extractor (`extract_features`), the baseline profiler
(`build_user_profile`), the risk aggregator (`calculate_risk_score`) and
the threshold decision logic of `classify_user`.  Python floats are
modelled as exact rationals, and the wall clock (`datetime.now()`) is
passed explicitly as a `Clock` value.
-/

/-- The extraction instant: `datetime.now().hour` and `datetime.now().weekday()`. -/
structure Clock where
  hour : ℚ
  weekday : ℚ
  deriving DecidableEq

/-- The `keystroke_dynamics` signal group; an `Option` field models a
possibly-missing dict key. -/
structure KeystrokeDynamics where
  avg_speed : Option ℚ
  rhythm_variance : Option ℚ
  avg_pressure : Option ℚ
  swipe_velocity : Option ℚ
  deriving DecidableEq

/-- The `navigation_pattern` signal group. -/
structure NavigationPattern where
  screen_sequence_score : Option ℚ
  direct_sensitive_access : Option ℚ
  avg_dwell_time : Option ℚ
  deriving DecidableEq

/-- The `transaction_data` signal group. -/
structure TransactionData where
  amount : Option ℚ
  payee_score : Option ℚ
  frequency : Option ℚ
  balance_checks : Option ℚ
  deriving DecidableEq

/-- The `location_data` signal group. -/
structure LocationData where
  familiarity_score : Option ℚ
  wifi_match : Option ℚ
  bluetooth_count : Option ℚ
  travel_distance : Option ℚ
  deriving DecidableEq

/-- The `biometric_data` signal group. -/
structure BiometricData where
  tremor_match_score : Option ℚ
  gyro_similarity : Option ℚ
  accel_similarity : Option ℚ
  deriving DecidableEq

/-- One session observation (`user_data`): a nested record of named signal
groups.  A `none` field or group models an absent dict key, read through
`dict.get` with the documented default. -/
structure Observation where
  daily_login_count : Option ℚ
  session_time : Option ℚ
  keystroke_dynamics : Option KeystrokeDynamics
  navigation_pattern : Option NavigationPattern
  transaction_data : Option TransactionData
  location_data : Option LocationData
  biometric_data : Option BiometricData
  panic_gesture : Option ℚ
  decoy_response : Option ℚ
  deriving DecidableEq

/-- The 24 feature names produced by `extract_features`, one constructor per
key of the `features` dict. -/
inductive FeatureName where
  | login_frequency
  | session_duration
  | hour_of_day
  | day_of_week
  | avg_typing_speed
  | typing_rhythm_variance
  | tap_pressure
  | swipe_velocity
  | typical_screen_sequence
  | direct_to_sensitive
  | page_dwell_time
  | transaction_amount
  | payee_familiarity
  | transaction_frequency
  | balance_check_frequency
  | location_familiarity
  | wifi_pattern_match
  | bluetooth_devices
  | travel_distance
  | tremor_signature
  | gyroscope_pattern
  | accelerometer_pattern
  | panic_gesture_triggered
  | decoy_interaction_normal
  deriving DecidableEq, Fintype

/-- `user_data.get(group, emptyDict).get(field, d)`: reading a field of a
possibly-absent signal group with default `d`. -/
def groupGet {α : Type} (g : Option α) (field : α → Option ℚ) (d : ℚ) : ℚ :=
  (g.bind field).getD d

/-- `BehavioralAuthModel.extract_features`: maps one observation to the
feature value of each feature name, with the source's per-field defaults.
`hour_of_day` and `day_of_week` come from the extraction instant `c`. -/
def extract_features (c : Clock) (user_data : Observation) : FeatureName → ℚ :=
  fun f =>
    match f with
    | .login_frequency => user_data.daily_login_count.getD 0
    | .session_duration => user_data.session_time.getD 0
    | .hour_of_day => c.hour
    | .day_of_week => c.weekday
    | .avg_typing_speed => groupGet user_data.keystroke_dynamics KeystrokeDynamics.avg_speed 0
    | .typing_rhythm_variance => groupGet user_data.keystroke_dynamics KeystrokeDynamics.rhythm_variance 0
    | .tap_pressure => groupGet user_data.keystroke_dynamics KeystrokeDynamics.avg_pressure 0
    | .swipe_velocity => groupGet user_data.keystroke_dynamics KeystrokeDynamics.swipe_velocity 0
    | .typical_screen_sequence => groupGet user_data.navigation_pattern NavigationPattern.screen_sequence_score 0
    | .direct_to_sensitive => groupGet user_data.navigation_pattern NavigationPattern.direct_sensitive_access 0
    | .page_dwell_time => groupGet user_data.navigation_pattern NavigationPattern.avg_dwell_time 0
    | .transaction_amount => groupGet user_data.transaction_data TransactionData.amount 0
    | .payee_familiarity => groupGet user_data.transaction_data TransactionData.payee_score 1
    | .transaction_frequency => groupGet user_data.transaction_data TransactionData.frequency 0
    | .balance_check_frequency => groupGet user_data.transaction_data TransactionData.balance_checks 0
    | .location_familiarity => groupGet user_data.location_data LocationData.familiarity_score 1
    | .wifi_pattern_match => groupGet user_data.location_data LocationData.wifi_match 1
    | .bluetooth_devices => groupGet user_data.location_data LocationData.bluetooth_count 0
    | .travel_distance => groupGet user_data.location_data LocationData.travel_distance 0
    | .tremor_signature => groupGet user_data.biometric_data BiometricData.tremor_match_score 1
    | .gyroscope_pattern => groupGet user_data.biometric_data BiometricData.gyro_similarity 1
    | .accelerometer_pattern => groupGet user_data.biometric_data BiometricData.accel_similarity 1
    | .panic_gesture_triggered => user_data.panic_gesture.getD 0
    | .decoy_interaction_normal => user_data.decoy_response.getD 1

/-- Insertion order of the `features` dict built by `extract_features`;
Python dict iteration (`current_features.items()`) follows it. -/
def featureOrder : List FeatureName :=
  [.login_frequency, .session_duration, .hour_of_day, .day_of_week,
   .avg_typing_speed, .typing_rhythm_variance, .tap_pressure, .swipe_velocity,
   .typical_screen_sequence, .direct_to_sensitive, .page_dwell_time,
   .transaction_amount, .payee_familiarity, .transaction_frequency, .balance_check_frequency,
   .location_familiarity, .wifi_pattern_match, .bluetooth_devices, .travel_distance,
   .tremor_signature, .gyroscope_pattern, .accelerometer_pattern,
   .panic_gesture_triggered, .decoy_interaction_normal]

/-- Per-feature baseline summary statistics.  The source also stores
`min`, `max` and the two quartiles; only `mean` and `std` are ever read
back by the risk aggregator, so only those are carried here. -/
structure FeatureStats where
  mean : ℚ
  std : ℚ
  deriving DecidableEq

/-- A per-identity baseline profile (`self.user_profiles[user_id]`). -/
structure UserProfile where
  user_id : String
  baseline_features : List (FeatureName × FeatureStats)
  deriving DecidableEq

/-- The `risk_thresholds` configuration dict. -/
structure Thresholds where
  low : ℚ
  medium : ℚ
  high : ℚ
  deriving DecidableEq

/-- The profile/threshold state of a `BehavioralAuthModel` instance.  The
fitted sklearn estimators (`models`, `scalers`, `encoders`) are external
library state that only feeds the `model_predictions` field of the output
and never influences the risk score, factors, classification or action;
the embedding covers the untrained-estimator state, where the prediction
branches of `classify_user` are skipped. -/
structure BehavioralAuthModel where
  user_profiles : List (String × UserProfile)
  risk_thresholds : Thresholds
  deriving DecidableEq

/-- `BehavioralAuthModel.__init__`: no profiles, thresholds
low 0.3 / medium 0.6 / high 0.8. -/
def BehavioralAuthModel.init : BehavioralAuthModel :=
  ⟨[], ⟨0.3, 0.6, 0.8⟩⟩

/-- Python dict lookup over an association list of unique keys:
`d[k]` when `k in d`, else `none`. -/
def assocLookup {κ ν : Type} [DecidableEq κ] : List (κ × ν) → κ → Option ν
  | [], _ => none
  | (k, v) :: rest, key => if k = key then some v else assocLookup rest key

/-- `user_id in self.user_profiles` / `self.user_profiles[user_id]`. -/
def lookupProfile (m : BehavioralAuthModel) (user_id : String) : Option UserProfile :=
  assocLookup m.user_profiles user_id

/-- `feature in profile['baseline_features']` /
`profile['baseline_features'][feature]`. -/
def lookupStats (p : UserProfile) (f : FeatureName) : Option FeatureStats :=
  assocLookup p.baseline_features f

/-- The literal `1e-6` of `std = max(baseline['std'], 1e-6)`. -/
def stdFloor : ℚ := 1e-6

/-- `max(baseline['std'], 1e-6)  # avoid tiny std`. -/
def stdFloored (b : FeatureStats) : ℚ := max b.std stdFloor

/-- `z_score = abs(value - baseline['mean']) / std` with the floored std. -/
def zScoreOf (b : FeatureStats) (value : ℚ) : ℚ :=
  |value - b.mean| / stdFloored b

/-- One triggered risk-factor description, one constructor per
`risk_factors.append(...)` site of `calculate_risk_score`. -/
inductive RiskFactor where
  | deviation (f : FeatureName) (z : ℚ)
  | panicGesture
  | directSensitive
  | unfamiliarLocation
  | biometricMismatch
  deriving DecidableEq

/-- What one feature adds to `total_deviation` in the baseline loop:
its z-score when the feature has baseline stats and `z_score > 2`,
otherwise nothing. -/
def devContribution (p : UserProfile) (current : FeatureName → ℚ) (f : FeatureName) : ℚ :=
  match lookupStats p f with
  | none => 0
  | some b => if 2 < zScoreOf b (current f) then zScoreOf b (current f) else 0

/-- The risk factor one feature appends in the baseline loop, when it does. -/
def devFactorOpt (p : UserProfile) (current : FeatureName → ℚ) (f : FeatureName) :
    Option RiskFactor :=
  match lookupStats p f with
  | none => none
  | some b =>
    if 2 < zScoreOf b (current f) then some (RiskFactor.deviation f (zScoreOf b (current f)))
    else none

/-- One iteration of the `for feature, value in current_features.items()`
loop: features absent from the baseline are skipped; a feature with
`z_score > 2` appends a factor and accumulates its z-score. -/
def deviation_step (p : UserProfile) (current : FeatureName → ℚ)
    (acc : List RiskFactor × ℚ) (f : FeatureName) : List RiskFactor × ℚ :=
  match lookupStats p f with
  | none => acc
  | some b =>
    if 2 < zScoreOf b (current f) then
      (acc.1 ++ [RiskFactor.deviation f (zScoreOf b (current f))], acc.2 + zScoreOf b (current f))
    else acc

/-- The whole baseline-deviation loop, over the features dict in its
insertion order, starting from `risk_factors = []`, `total_deviation = 0`. -/
def deviationLoop (p : UserProfile) (current : FeatureName → ℚ) : List RiskFactor × ℚ :=
  featureOrder.foldl (deviation_step p current) ([], 0)

/-- `risk_score = max(min(total_deviation / 10, 1.0), 0.05)`. -/
def clampScore (total_deviation : ℚ) : ℚ :=
  max (min (total_deviation / 10) 1) 0.05

/-- The body of `calculate_risk_score` after the profile lookup: the
baseline-deviation loop followed by the four rule-based boosts, then the
clamped normalization.  The `current_features.get(key, default)` reads of
the rule checks always find their key, since `extract_features` sets
every feature. -/
def risk_core (p : UserProfile) (current_features : FeatureName → ℚ) :
    ℚ × List RiskFactor :=
  let dl := deviationLoop p current_features
  let a1 := if current_features FeatureName.panic_gesture_triggered = 1 then
      (dl.1 ++ [RiskFactor.panicGesture], dl.2 + 5) else dl
  let a2 := if current_features FeatureName.direct_to_sensitive = 1 then
      (a1.1 ++ [RiskFactor.directSensitive], a1.2 + 3) else a1
  let a3 := if current_features FeatureName.location_familiarity < 0.3 then
      (a2.1 ++ [RiskFactor.unfamiliarLocation], a2.2 + 2) else a2
  let a4 := if current_features FeatureName.tremor_signature < 0.7 then
      (a3.1 ++ [RiskFactor.biometricMismatch], a3.2 + 4) else a3
  (clampScore a4.2, a4.1)

/-- The deviation weight added by the four rule-based boosts together. -/
def rule_boost (current : FeatureName → ℚ) : ℚ :=
  (if current FeatureName.panic_gesture_triggered = 1 then (5 : ℚ) else 0) +
  (if current FeatureName.direct_to_sensitive = 1 then 3 else 0) +
  (if current FeatureName.location_familiarity < 0.3 then 2 else 0) +
  (if current FeatureName.tremor_signature < 0.7 then 4 else 0)

/-- The factors appended by the four rule-based boosts, in check order. -/
def rule_factors (current : FeatureName → ℚ) : List RiskFactor :=
  (if current FeatureName.panic_gesture_triggered = 1 then [RiskFactor.panicGesture] else []) ++
  (if current FeatureName.direct_to_sensitive = 1 then [RiskFactor.directSensitive] else []) ++
  (if current FeatureName.location_familiarity < 0.3 then [RiskFactor.unfamiliarLocation] else []) ++
  (if current FeatureName.tremor_signature < 0.7 then [RiskFactor.biometricMismatch] else [])

/-- The accumulated `total_deviation` just before normalization. -/
def total_deviation (p : UserProfile) (current : FeatureName → ℚ) : ℚ :=
  (deviationLoop p current).2 + rule_boost current

/-- The two result shapes of `calculate_risk_score`: a bare float
(`return 0.9`) for an unknown user, or the `(risk_score, risk_factors)`
pair for a known one. -/
inductive RiskResult where
  | score_only (s : ℚ)
  | score_with_factors (s : ℚ) (factors : List RiskFactor)
  deriving DecidableEq

/-- The numeric risk score carried by either result shape. -/
def RiskResult.score : RiskResult → ℚ
  | .score_only s => s
  | .score_with_factors s _ => s

/-- `BehavioralAuthModel.calculate_risk_score`. -/
def calculate_risk_score (m : BehavioralAuthModel) (user_id : String)
    (current_session : Observation) (c : Clock) : RiskResult :=
  match lookupProfile m user_id with
  | none => RiskResult.score_only 0.9
  | some profile =>
    let current_features := extract_features c current_session
    RiskResult.score_with_factors (risk_core profile current_features).1
      (risk_core profile current_features).2

/-- The four decision classifications of `classify_user`. -/
inductive Classification where
  | BLOCK
  | CHALLENGE
  | MONITOR
  | ALLOW
  deriving DecidableEq

/-- The threshold chain of `classify_user`: top-down comparison of the
risk score against high, medium, low with `>=` semantics, yielding the
classification and its recommended action. -/
def decisionFor (t : Thresholds) (risk_score : ℚ) : Classification × String :=
  if t.high ≤ risk_score then
    (Classification.BLOCK, "Block transaction and lock session")
  else if t.medium ≤ risk_score then
    (Classification.CHALLENGE, "Request additional authentication (OTP/Biometric)")
  else if t.low ≤ risk_score then
    (Classification.MONITOR, "Continue with increased monitoring")
  else
    (Classification.ALLOW, "Continue normally")

/-- The output record of `classify_user`.  `model_predictions` is empty in
the untrained-estimator state embedded here. -/
structure RiskAssessment where
  user_id : String
  classification : Classification
  action : String
  risk_score : ℚ
  risk_factors : List RiskFactor
  timestamp : Clock
  deriving DecidableEq

/-- `BehavioralAuthModel.classify_user`.  The statement
`risk_score, risk_factors = self.calculate_risk_score(...)` unpacks the
result into two values; when `calculate_risk_score` returns the bare
float `0.9`, the unpacking raises a `TypeError`, embedded here as the
`Except.error` branch. -/
def classify_user (m : BehavioralAuthModel) (user_id : String)
    (current_session : Observation) (c : Clock) : Except String RiskAssessment :=
  match calculate_risk_score m user_id current_session c with
  | .score_only _ => Except.error "TypeError: cannot unpack non-iterable float object"
  | .score_with_factors risk_score risk_factors =>
    let d := decisionFor m.risk_thresholds risk_score
    Except.ok ⟨user_id, d.1, d.2, risk_score, risk_factors, c⟩

/-- `np.mean(values)` over the collected sample of one feature. -/
def sampleMean (xs : List ℚ) : ℚ := xs.sum / xs.length

/-- The square of `np.std(values)` (population variance); `np.std` itself
is its square root. -/
def sampleVariance (xs : List ℚ) : ℚ :=
  ((xs.map fun x => (x - sampleMean xs) ^ 2).sum) / xs.length

/-- `BehavioralAuthModel.build_user_profile`.  Every call of
`extract_features` yields the same 24 keys, so the accumulated
`baseline_features` key set is empty exactly when `historical_data` is
empty and otherwise equals `featureOrder`.  The six numpy summary
statistics over each collected sample are abstracted as `summarize`,
because `np.std` takes a square root that has no exact rational value;
nothing in this development depends on its concrete output.  The function
raises on no input, which the `Except` result type makes explicit. -/
def build_user_profile (summarize : List ℚ → FeatureStats) (user_id : String)
    (historical_data : List Observation) (c : Clock) : Except String UserProfile :=
  Except.ok ⟨user_id,
    (if historical_data.isEmpty then [] else featureOrder).map
      (fun f => (f, summarize (historical_data.map fun s => extract_features c s f)))⟩

/-- A fixed extraction instant for concrete evaluations. -/
def clock0 : Clock := ⟨0, 0⟩

/-- An observation with every field and group absent. -/
def emptyObs : Observation := ⟨none, none, none, none, none, none, none, none, none⟩

/-- `emptyObs` with the panic-gesture flag set. -/
def obsPanic : Observation := ⟨none, none, none, none, none, none, none, some 1, none⟩

/-- A baseline holding only the panic-gesture feature, mean 0 and std 1. -/
def pPanicStd1 : UserProfile := ⟨"u-panic", [(FeatureName.panic_gesture_triggered, ⟨0, 1⟩)]⟩

/-- A baseline holding only the panic-gesture feature, mean 0 and std 0:
what profiling historical sessions that all have the flag at 0 yields. -/
def pPanicStd0 : UserProfile := ⟨"u-panic0", [(FeatureName.panic_gesture_triggered, ⟨0, 0⟩)]⟩

/-- A baseline holding only the typing-speed feature, mean 0 and std 1. -/
def pTyping : UserProfile := ⟨"u-typing", [(FeatureName.avg_typing_speed, ⟨0, 1⟩)]⟩

/-- A baseline holding only the location-familiarity feature, mean 1 and
std 10. -/
def pLoc : UserProfile := ⟨"u-loc", [(FeatureName.location_familiarity, ⟨1, 10⟩)]⟩

/-- A stored profile with an empty baseline-feature map. -/
def profile0 : UserProfile := ⟨"user-w", []⟩

/-- A model state knowing the single identity `user-w`. -/
def modelKnown : BehavioralAuthModel := ⟨[("user-w", profile0)], ⟨0.3, 0.6, 0.8⟩⟩

/-- A model state knowing the single identity `u-typing`. -/
def modelTyping : BehavioralAuthModel := ⟨[("u-typing", pTyping)], ⟨0.3, 0.6, 0.8⟩⟩

/-- A model state knowing the single identity `u-loc`. -/
def modelLoc : BehavioralAuthModel := ⟨[("u-loc", pLoc)], ⟨0.3, 0.6, 0.8⟩⟩

/-- An observation whose only signal is a typing speed of 1. -/
def obsTyping1 : Observation := ⟨none, none, some ⟨some 1, none, none, none⟩, none, none, none, none, none, none⟩

/-- An observation whose only signal is a typing speed of 5. -/
def obsTyping5 : Observation := ⟨none, none, some ⟨some 5, none, none, none⟩, none, none, none, none, none, none⟩

/-- An observation whose only signal is a location familiarity of 0.25. -/
def obsLocA : Observation := ⟨none, none, none, none, none, some ⟨some 0.25, none, none, none⟩, none, none, none⟩

/-- An observation whose only signal is a location familiarity of 3. -/
def obsLocB : Observation := ⟨none, none, none, none, none, some ⟨some 3, none, none, none⟩, none, none, none⟩

/-- A concrete instantiation of the abstracted summary-statistics step. -/
def summarizeZero : List ℚ → FeatureStats := fun _ => ⟨0, 0⟩

/-! ### Structural lemmas about the risk aggregator -/

/-- The floored standard deviation is strictly positive, whatever the
stored std is. -/
theorem stdFloored_pos (b : FeatureStats) : 0 < stdFloored b :=
  lt_of_lt_of_le (by norm_num [stdFloor]) (le_max_right b.std stdFloor)

/-- Z-scores are nonnegative. -/
theorem zScoreOf_nonneg (b : FeatureStats) (v : ℚ) : 0 ≤ zScoreOf b v :=
  div_nonneg (abs_nonneg _) (le_of_lt (stdFloored_pos b))

/-- Each feature's contribution to `total_deviation` is nonnegative. -/
theorem devContribution_nonneg (p : UserProfile) (current : FeatureName → ℚ)
    (f : FeatureName) : 0 ≤ devContribution p current f := by
  unfold devContribution
  cases lookupStats p f with
  | none => exact le_refl 0
  | some b =>
    dsimp only
    split
    · exact zScoreOf_nonneg b (current f)
    · exact le_refl 0

/-- The baseline-deviation loop, run from any accumulator, collects the
triggered factors in iteration order and sums the triggered z-scores. -/
theorem deviation_foldl (p : UserProfile) (current : FeatureName → ℚ) :
    ∀ (l : List FeatureName) (fs : List RiskFactor) (t : ℚ),
      l.foldl (deviation_step p current) (fs, t) =
        (fs ++ l.filterMap (devFactorOpt p current),
          t + (l.map (devContribution p current)).sum) := by
  intro l
  induction l with
  | nil => intro fs t; simp
  | cons f l ih =>
    intro fs t
    rw [List.foldl_cons, List.filterMap_cons, List.map_cons, List.sum_cons]
    cases hb : lookupStats p f with
    | none =>
      have hstep : deviation_step p current (fs, t) f = (fs, t) := by
        unfold deviation_step; rw [hb]
      have hfac : devFactorOpt p current f = none := by
        unfold devFactorOpt; rw [hb]
      have hcon : devContribution p current f = 0 := by
        unfold devContribution; rw [hb]
      rw [hstep, hfac, hcon, ih]
      simp
    | some b =>
      by_cases hz : 2 < zScoreOf b (current f)
      · have hstep : deviation_step p current (fs, t) f =
            (fs ++ [RiskFactor.deviation f (zScoreOf b (current f))],
              t + zScoreOf b (current f)) := by
          unfold deviation_step; rw [hb]; dsimp only; rw [if_pos hz]
        have hfac : devFactorOpt p current f =
            some (RiskFactor.deviation f (zScoreOf b (current f))) := by
          unfold devFactorOpt; rw [hb]; dsimp only; rw [if_pos hz]
        have hcon : devContribution p current f = zScoreOf b (current f) := by
          unfold devContribution; rw [hb]; dsimp only; rw [if_pos hz]
        rw [hstep, hfac, hcon, ih]
        simp [add_assoc]
      · have hstep : deviation_step p current (fs, t) f = (fs, t) := by
          unfold deviation_step; rw [hb]; dsimp only; rw [if_neg hz]
        have hfac : devFactorOpt p current f = none := by
          unfold devFactorOpt; rw [hb]; dsimp only; rw [if_neg hz]
        have hcon : devContribution p current f = 0 := by
          unfold devContribution; rw [hb]; dsimp only; rw [if_neg hz]
        rw [hstep, hfac, hcon, ih]
        simp

/-- `deviationLoop` in closed form. -/
theorem deviationLoop_spec (p : UserProfile) (current : FeatureName → ℚ) :
    deviationLoop p current =
      (featureOrder.filterMap (devFactorOpt p current),
        (featureOrder.map (devContribution p current)).sum) := by
  unfold deviationLoop
  rw [deviation_foldl]
  simp

/-- `risk_core` in closed form: the clamped normalized total deviation,
and the deviation factors followed by the rule factors. -/
theorem risk_core_spec (p : UserProfile) (current : FeatureName → ℚ) :
    risk_core p current =
      (clampScore (total_deviation p current),
        (deviationLoop p current).1 ++ rule_factors current) := by
  unfold risk_core total_deviation rule_boost rule_factors
  by_cases h1 : current FeatureName.panic_gesture_triggered = 1 <;>
    by_cases h2 : current FeatureName.direct_to_sensitive = 1 <;>
      by_cases h3 : current FeatureName.location_familiarity < 0.3 <;>
        by_cases h4 : current FeatureName.tremor_signature < 0.7 <;>
          simp [h1, h2, h3, h4, List.append_assoc, add_assoc]

/-- `calculate_risk_score` on a known identity, in closed form. -/
theorem calculate_risk_score_known (m : BehavioralAuthModel) (user_id : String)
    (o : Observation) (c : Clock) (p : UserProfile)
    (hp : lookupProfile m user_id = some p) :
    calculate_risk_score m user_id o c =
      RiskResult.score_with_factors
        (clampScore (total_deviation p (extract_features c o)))
        ((deviationLoop p (extract_features c o)).1 ++
          rule_factors (extract_features c o)) := by
  simp [calculate_risk_score, hp, risk_core_spec]

/-- The clamp keeps every normalized score inside `[0.05, 1]`. -/
theorem clampScore_bounds (t : ℚ) : 0.05 ≤ clampScore t ∧ clampScore t ≤ 1 := by
  unfold clampScore
  exact ⟨le_max_right _ _, max_le (min_le_right _ _) (by norm_num)⟩

/-- The clamp is monotone. -/
theorem clampScore_mono {t1 t2 : ℚ} (h : t1 ≤ t2) : clampScore t1 ≤ clampScore t2 := by
  unfold clampScore
  have h10 : t1 / 10 ≤ t2 / 10 := by linarith
  exact max_le_max (min_le_min h10 (le_refl 1)) (le_refl _)


/-- `total_deviation` as a closed sum of per-feature contributions plus
the rule boosts. -/
theorem total_deviation_spec (p : UserProfile) (current : FeatureName → ℚ) :
    total_deviation p current =
      (featureOrder.map (devContribution p current)).sum + rule_boost current := by
  unfold total_deviation
  rw [deviationLoop_spec]

/-- A feature's deviation contribution depends only on that feature's
current value. -/
theorem devContribution_congr (p : UserProfile) (cur1 cur2 : FeatureName → ℚ)
    (f : FeatureName) (h : cur1 f = cur2 f) :
    devContribution p cur1 f = devContribution p cur2 f := by
  unfold devContribution
  rw [h]

/-- A feature's deviation contribution is monotone in the absolute
distance of its current value from the baseline mean. -/
theorem devContribution_mono (p : UserProfile) (cur1 cur2 : FeatureName → ℚ)
    (f : FeatureName)
    (h : ∀ b : FeatureStats, lookupStats p f = some b →
      |cur1 f - b.mean| ≤ |cur2 f - b.mean|) :
    devContribution p cur1 f ≤ devContribution p cur2 f := by
  unfold devContribution
  cases hb : lookupStats p f with
  | none => exact le_refl 0
  | some b =>
    dsimp only
    have hz : zScoreOf b (cur1 f) ≤ zScoreOf b (cur2 f) := by
      unfold zScoreOf
      exact (div_le_div_iff_of_pos_right (stdFloored_pos b)).mpr (h b hb)
    by_cases h1 : 2 < zScoreOf b (cur1 f)
    · rw [if_pos h1, if_pos (lt_of_lt_of_le h1 hz)]
      exact hz
    · rw [if_neg h1]
      by_cases h2 : 2 < zScoreOf b (cur2 f)
      · rw [if_pos h2]
        exact zScoreOf_nonneg b (cur2 f)
      · rw [if_neg h2]

/-- Summing a constant list. -/
theorem sum_const_list (xs : List ℚ) (v : ℚ) (h : ∀ x ∈ xs, x = v) :
    xs.sum = v * xs.length := by
  induction xs with
  | nil => simp
  | cons a l ih =>
    have ha : a = v := h a (List.mem_cons_self a l)
    have hl : l.sum = v * l.length := ih fun x hx => h x (List.mem_cons_of_mem a hx)
    simp only [List.sum_cons, List.length_cons, ha, hl]
    push_cast
    ring

/-- A historical sample with identical values in every session has
population variance 0, hence `np.std` (its square root) is 0. -/
theorem sampleVariance_const (xs : List ℚ) (v : ℚ) (h : ∀ x ∈ xs, x = v) :
    sampleVariance xs = 0 := by
  unfold sampleVariance
  cases xs with
  | nil => simp
  | cons a l =>
    have hlen : ((a :: l).length : ℚ) ≠ 0 := by
      have : (0:ℚ) ≤ (l.length : ℚ) := by positivity
      simp only [List.length_cons]
      push_cast
      linarith
    have hm : sampleMean (a :: l) = v := by
      unfold sampleMean
      rw [sum_const_list (a :: l) v h, mul_div_assoc, div_self hlen, mul_one]
    have hsum : ((a :: l).map fun x => (x - sampleMean (a :: l)) ^ 2).sum = 0 := by
      rw [sum_const_list (((a :: l)).map fun x => (x - sampleMean (a :: l)) ^ 2) 0 ?_, zero_mul]
      intro x hx
      obtain ⟨y, hy, rfl⟩ := List.mem_map.mp hx
      rw [hm, h y hy]
      ring
    rw [hsum, zero_div]

/-! ### The claims -/

/-- C1 counterexample: the claim as frozen is false on the code.  For an
identity with no stored profile, `calculate_risk_score` returns the bare
number 0.9, which is not the pair of 0.9 with an empty risk-factor
list. -/
theorem claim_C1_counterexample :
    calculate_risk_score BehavioralAuthModel.init "never-seen-id" emptyObs clock0 =
        RiskResult.score_only 0.9 ∧
      calculate_risk_score BehavioralAuthModel.init "never-seen-id" emptyObs clock0 ≠
        RiskResult.score_with_factors 0.9 [] := by
  refine ⟨rfl, ?_⟩
  rw [show calculate_risk_score BehavioralAuthModel.init "never-seen-id" emptyObs clock0 =
    RiskResult.score_only 0.9 from rfl]
  simp

/-- C1 (amended): for every observation and every identity without a
stored BaselineProfile, `calculate_risk_score` returns exactly the bare
risk score 0.9, with no risk-factor list at all. -/
theorem claim_C1_unknown_user_bare_score (m : BehavioralAuthModel)
    (user_id : String) (o : Observation) (c : Clock)
    (h : lookupProfile m user_id = none) :
    calculate_risk_score m user_id o c = RiskResult.score_only 0.9 := by
  unfold calculate_risk_score
  rw [h]

/-- C1 witness: the amended claim at a concrete unknown identity. -/
theorem claim_C1_witness :
    calculate_risk_score BehavioralAuthModel.init "user-x" emptyObs clock0 =
      RiskResult.score_only 0.9 :=
  claim_C1_unknown_user_bare_score BehavioralAuthModel.init "user-x" emptyObs clock0 rfl

/-- C2: the clamp keeps every normalized score in [0.05, 1] whatever the
accumulated total deviation is, and hence for every identity with a
stored BaselineProfile and every observation the returned risk score
lies in [0.05, 1]. -/
theorem claim_C2_score_bounds :
    (∀ t : ℚ, 0.05 ≤ clampScore t ∧ clampScore t ≤ 1) ∧
      ∀ (m : BehavioralAuthModel) (user_id : String) (o : Observation) (c : Clock)
        (p : UserProfile), lookupProfile m user_id = some p →
          0.05 ≤ (calculate_risk_score m user_id o c).score ∧
            (calculate_risk_score m user_id o c).score ≤ 1 := by
  refine ⟨clampScore_bounds, fun m user_id o c p hp => ?_⟩
  rw [calculate_risk_score_known m user_id o c p hp]
  exact clampScore_bounds _

/-- C2 witness: the bounds at a concrete known identity, and the clamp at
deviation totals 0 and 10^6. -/
theorem claim_C2_witness :
    (0.05 ≤ (calculate_risk_score modelKnown "user-w" emptyObs clock0).score ∧
      (calculate_risk_score modelKnown "user-w" emptyObs clock0).score ≤ 1) ∧
    (0.05 ≤ clampScore 0 ∧ clampScore 0 ≤ 1) ∧
    (0.05 ≤ clampScore 1000000 ∧ clampScore 1000000 ≤ 1) :=
  ⟨claim_C2_score_bounds.2 modelKnown "user-w" emptyObs clock0 profile0
      (by simp [lookupProfile, modelKnown, assocLookup]),
    claim_C2_score_bounds.1 0, claim_C2_score_bounds.1 1000000⟩

/-- C4 counterexample: the claim as frozen is false on the code.
`build_user_profile` called with zero historical observations signals no
error at all (no `InsufficientDataError` exists in the code); it returns
a profile with an empty baseline-feature map. -/
theorem claim_C4_counterexample :
    build_user_profile summarizeZero "user-x" [] clock0 =
      Except.ok ⟨"user-x", []⟩ := rfl

/-- C4 (amended): called with zero historical observations,
`build_user_profile` does not signal an error; for any summary-statistics
function, identity and clock it produces a profile whose
`baseline_features` map is empty. -/
theorem claim_C4_empty_history_profile (summarize : List ℚ → FeatureStats)
    (user_id : String) (c : Clock) :
    build_user_profile summarize user_id [] c = Except.ok ⟨user_id, []⟩ := rfl

/-- C5: for a baseline feature whose stored standard deviation is 0 (as a
constant historical sample produces: its population variance is 0), the
z-score divisor is the std floored at 1e-6, which is positive, so the
deviation computation is total and amounts to multiplying by 10^6. -/
theorem claim_C5_std_floor (b : FeatureStats) (v : ℚ) (hstd : b.std = 0) :
    stdFloored b = 1e-6 ∧ 0 < stdFloored b ∧
      zScoreOf b v = |v - b.mean| * 1000000 ∧
      ∀ (xs : List ℚ) (x0 : ℚ), (∀ x ∈ xs, x = x0) → sampleVariance xs = 0 := by
  have h1 : stdFloored b = 1e-6 := by
    unfold stdFloored stdFloor
    rw [hstd]
    norm_num
  refine ⟨h1, ?_, ?_, fun xs x0 h => sampleVariance_const xs x0 h⟩
  · rw [h1]
    norm_num
  · unfold zScoreOf
    rw [h1, div_eq_mul_inv]
    norm_num

/-- C5 witness: the floor at a concrete constant-baseline feature. -/
theorem claim_C5_witness :
    stdFloored ⟨0, 0⟩ = 1e-6 ∧ 0 < stdFloored ⟨0, 0⟩ ∧
      zScoreOf ⟨0, 0⟩ 1 = |1 - (0:ℚ)| * 1000000 := by
  obtain ⟨h1, h2, h3, -⟩ := claim_C5_std_floor ⟨0, 0⟩ 1 rfl
  exact ⟨h1, h2, h3⟩

/-- C8: feature extraction is a total function of the observation and the
clock — a missing field or signal group never raises — and every absent
feature takes its documented default: the familiarity/match scores
(location familiarity, wifi match, the three biometric match scores,
payee familiarity) and the decoy response default to 1, the counts and
all remaining numeric features default to 0, and the two clock features
come from the extraction instant. -/
theorem claim_C8_extraction_defaults (o : Observation) (c : Clock) :
    (o.location_data.bind LocationData.familiarity_score = none →
      extract_features c o FeatureName.location_familiarity = 1) ∧
    (o.location_data.bind LocationData.wifi_match = none →
      extract_features c o FeatureName.wifi_pattern_match = 1) ∧
    (o.biometric_data.bind BiometricData.tremor_match_score = none →
      extract_features c o FeatureName.tremor_signature = 1) ∧
    (o.biometric_data.bind BiometricData.gyro_similarity = none →
      extract_features c o FeatureName.gyroscope_pattern = 1) ∧
    (o.biometric_data.bind BiometricData.accel_similarity = none →
      extract_features c o FeatureName.accelerometer_pattern = 1) ∧
    (o.transaction_data.bind TransactionData.payee_score = none →
      extract_features c o FeatureName.payee_familiarity = 1) ∧
    (o.decoy_response = none →
      extract_features c o FeatureName.decoy_interaction_normal = 1) ∧
    (o.daily_login_count = none →
      extract_features c o FeatureName.login_frequency = 0) ∧
    (o.session_time = none →
      extract_features c o FeatureName.session_duration = 0) ∧
    (o.keystroke_dynamics.bind KeystrokeDynamics.avg_speed = none →
      extract_features c o FeatureName.avg_typing_speed = 0) ∧
    (o.keystroke_dynamics.bind KeystrokeDynamics.rhythm_variance = none →
      extract_features c o FeatureName.typing_rhythm_variance = 0) ∧
    (o.keystroke_dynamics.bind KeystrokeDynamics.avg_pressure = none →
      extract_features c o FeatureName.tap_pressure = 0) ∧
    (o.keystroke_dynamics.bind KeystrokeDynamics.swipe_velocity = none →
      extract_features c o FeatureName.swipe_velocity = 0) ∧
    (o.navigation_pattern.bind NavigationPattern.screen_sequence_score = none →
      extract_features c o FeatureName.typical_screen_sequence = 0) ∧
    (o.navigation_pattern.bind NavigationPattern.direct_sensitive_access = none →
      extract_features c o FeatureName.direct_to_sensitive = 0) ∧
    (o.navigation_pattern.bind NavigationPattern.avg_dwell_time = none →
      extract_features c o FeatureName.page_dwell_time = 0) ∧
    (o.transaction_data.bind TransactionData.amount = none →
      extract_features c o FeatureName.transaction_amount = 0) ∧
    (o.transaction_data.bind TransactionData.frequency = none →
      extract_features c o FeatureName.transaction_frequency = 0) ∧
    (o.transaction_data.bind TransactionData.balance_checks = none →
      extract_features c o FeatureName.balance_check_frequency = 0) ∧
    (o.location_data.bind LocationData.bluetooth_count = none →
      extract_features c o FeatureName.bluetooth_devices = 0) ∧
    (o.location_data.bind LocationData.travel_distance = none →
      extract_features c o FeatureName.travel_distance = 0) ∧
    (o.panic_gesture = none →
      extract_features c o FeatureName.panic_gesture_triggered = 0) ∧
    extract_features c o FeatureName.hour_of_day = c.hour ∧
    extract_features c o FeatureName.day_of_week = c.weekday := by
  repeat' constructor
  all_goals first
    | rfl
    | (intro h; simp [extract_features, groupGet, h])

/-- C8 witness: the defaults at the observation with nothing present. -/
theorem claim_C8_witness :
    extract_features clock0 emptyObs FeatureName.location_familiarity = 1 ∧
      extract_features clock0 emptyObs FeatureName.tremor_signature = 1 ∧
      extract_features clock0 emptyObs FeatureName.payee_familiarity = 1 ∧
      extract_features clock0 emptyObs FeatureName.decoy_interaction_normal = 1 ∧
      extract_features clock0 emptyObs FeatureName.login_frequency = 0 := by
  have h := claim_C8_extraction_defaults emptyObs clock0
  exact ⟨h.1 rfl, h.2.2.1 rfl, h.2.2.2.2.2.1 rfl, h.2.2.2.2.2.2.1 rfl,
    h.2.2.2.2.2.2.2.1 rfl⟩

/-- C10: `calculate_risk_score` has two result shapes.  For an identity
without a stored profile it returns the bare number 0.9 — never a
(score, factors) pair — and `classify_user`, which unpacks the result
into two values, fails with a `TypeError` instead of returning a
`RiskAssessment`.  For an identity with a stored profile it returns a
(score, factors) pair and `classify_user` returns a `RiskAssessment`. -/
theorem claim_C10_result_shapes (m : BehavioralAuthModel) (user_id : String)
    (o : Observation) (c : Clock) :
    (lookupProfile m user_id = none →
      calculate_risk_score m user_id o c = RiskResult.score_only 0.9 ∧
        (∀ s fs, calculate_risk_score m user_id o c ≠
          RiskResult.score_with_factors s fs) ∧
        classify_user m user_id o c =
          Except.error "TypeError: cannot unpack non-iterable float object") ∧
    ∀ p : UserProfile, lookupProfile m user_id = some p →
      (∃ s fs, calculate_risk_score m user_id o c =
        RiskResult.score_with_factors s fs) ∧
        ∃ ra : RiskAssessment, classify_user m user_id o c = Except.ok ra := by
  constructor
  · intro h
    have hc : calculate_risk_score m user_id o c = RiskResult.score_only 0.9 := by
      unfold calculate_risk_score
      rw [h]
    refine ⟨hc, fun s fs heq => ?_, ?_⟩
    · rw [hc] at heq
      exact RiskResult.noConfusion heq
    · unfold classify_user
      rw [hc]
  · intro p hp
    have hc := calculate_risk_score_known m user_id o c p hp
    refine ⟨⟨_, _, hc⟩, ?_⟩
    unfold classify_user
    rw [hc]
    exact ⟨_, rfl⟩

/-- C10 witness: both halves of the unknown-identity branch at a concrete
never-profiled identity. -/
theorem claim_C10_witness :
    calculate_risk_score BehavioralAuthModel.init "nobody" emptyObs clock0 =
        RiskResult.score_only 0.9 ∧
      classify_user BehavioralAuthModel.init "nobody" emptyObs clock0 =
        Except.error "TypeError: cannot unpack non-iterable float object" := by
  obtain ⟨h1, -, h3⟩ :=
    (claim_C10_result_shapes BehavioralAuthModel.init "nobody" emptyObs clock0).1 rfl
  exact ⟨h1, h3⟩

/-- C9: for every identity with a stored profile, the risk-factor list is
ordered by trigger-check order: the baseline-deviation factors first,
collected over the features dict in feature-extraction order, followed by
the four fixed rule factors in the order panic gesture, direct sensitive
access, unfamiliar location, biometric mismatch. -/
theorem claim_C9_factor_order (m : BehavioralAuthModel) (user_id : String)
    (o : Observation) (c : Clock) (p : UserProfile)
    (hp : lookupProfile m user_id = some p) :
    calculate_risk_score m user_id o c =
      RiskResult.score_with_factors
        (clampScore (total_deviation p (extract_features c o)))
        (featureOrder.filterMap (devFactorOpt p (extract_features c o)) ++
          ((if extract_features c o FeatureName.panic_gesture_triggered = 1 then
              [RiskFactor.panicGesture] else []) ++
            (if extract_features c o FeatureName.direct_to_sensitive = 1 then
              [RiskFactor.directSensitive] else []) ++
            (if extract_features c o FeatureName.location_familiarity < 0.3 then
              [RiskFactor.unfamiliarLocation] else []) ++
            (if extract_features c o FeatureName.tremor_signature < 0.7 then
              [RiskFactor.biometricMismatch] else []))) := by
  rw [calculate_risk_score_known m user_id o c p hp, deviationLoop_spec]
  rfl

/-- C9 witness: the ordered factor list at a concrete known identity
whose session triggers the unfamiliar-location rule. -/
theorem claim_C9_witness :
    calculate_risk_score modelLoc "u-loc" obsLocA clock0 =
      RiskResult.score_with_factors 0.2 [RiskFactor.unfamiliarLocation] := by
  rw [claim_C9_factor_order modelLoc "u-loc" obsLocA clock0 pLoc
    (by simp [lookupProfile, modelLoc, assocLookup])]
  have ht : total_deviation pLoc (extract_features clock0 obsLocA) = 2 := by
    unfold total_deviation
    rw [deviationLoop_spec]
    simp [featureOrder, devContribution, lookupStats, pLoc, assocLookup, zScoreOf,
      stdFloored, stdFloor, extract_features, groupGet, obsLocA, clock0, rule_boost]
    norm_num [abs_eq_max_neg, max_def]
  have hf : featureOrder.filterMap (devFactorOpt pLoc (extract_features clock0 obsLocA)) =
      ([] : List RiskFactor) := by
    simp [featureOrder, devFactorOpt, lookupStats, pLoc, assocLookup, zScoreOf,
      stdFloored, stdFloor, extract_features, groupGet, obsLocA, clock0]
    norm_num [abs_eq_max_neg, max_def]
  rw [ht, hf]
  norm_num [clampScore, extract_features, groupGet, obsLocA, clock0, max_def, min_def]

/-- C3: with the init thresholds low 0.3, medium 0.6, high 0.8, the
decision is chosen top-down with >= semantics (ties go to the
higher-severity bucket): BLOCK iff 0.8 ≤ s, else CHALLENGE iff 0.6 ≤ s,
else MONITOR iff 0.3 ≤ s, else ALLOW; in particular 0.05 gives ALLOW,
0.3 MONITOR, 0.6 CHALLENGE, and 0.8 and 0.95 BLOCK.  Moreover every
`RiskAssessment` produced by `classify_user` carries exactly the
classification that its model's thresholds assign to its risk score. -/
theorem claim_C3_threshold_chain :
    (∀ s : ℚ,
      ((decisionFor BehavioralAuthModel.init.risk_thresholds s).1 =
          Classification.BLOCK ↔ 0.8 ≤ s) ∧
      ((decisionFor BehavioralAuthModel.init.risk_thresholds s).1 =
          Classification.CHALLENGE ↔ 0.6 ≤ s ∧ s < 0.8) ∧
      ((decisionFor BehavioralAuthModel.init.risk_thresholds s).1 =
          Classification.MONITOR ↔ 0.3 ≤ s ∧ s < 0.6) ∧
      ((decisionFor BehavioralAuthModel.init.risk_thresholds s).1 =
          Classification.ALLOW ↔ s < 0.3)) ∧
    (decisionFor BehavioralAuthModel.init.risk_thresholds 0.05).1 =
      Classification.ALLOW ∧
    (decisionFor BehavioralAuthModel.init.risk_thresholds 0.3).1 =
      Classification.MONITOR ∧
    (decisionFor BehavioralAuthModel.init.risk_thresholds 0.6).1 =
      Classification.CHALLENGE ∧
    (decisionFor BehavioralAuthModel.init.risk_thresholds 0.8).1 =
      Classification.BLOCK ∧
    (decisionFor BehavioralAuthModel.init.risk_thresholds 0.95).1 =
      Classification.BLOCK ∧
    ∀ (m : BehavioralAuthModel) (user_id : String) (o : Observation) (c : Clock)
      (ra : RiskAssessment), classify_user m user_id o c = Except.ok ra →
        ra.classification = (decisionFor m.risk_thresholds ra.risk_score).1 := by
  refine ⟨fun s => ?_, ?_, ?_, ?_, ?_, ?_, fun m user_id o c ra hra => ?_⟩
  · unfold decisionFor BehavioralAuthModel.init
    dsimp only
    split_ifs with h1 h2 h3 <;>
      refine ⟨?_, ?_, ?_, ?_⟩ <;>
        simp <;>
          first
            | linarith
            | (intro hx; linarith)
            | (constructor <;> linarith)
  · norm_num [decisionFor, BehavioralAuthModel.init]
  · norm_num [decisionFor, BehavioralAuthModel.init]
  · norm_num [decisionFor, BehavioralAuthModel.init]
  · norm_num [decisionFor, BehavioralAuthModel.init]
  · norm_num [decisionFor, BehavioralAuthModel.init]
  · unfold classify_user at hra
    cases hc : calculate_risk_score m user_id o c with
    | score_only s =>
      rw [hc] at hra
      simp at hra
    | score_with_factors s fs =>
      rw [hc] at hra
      dsimp only at hra
      injection hra with h
      rw [← h]

/-- C3 witness: the `RiskAssessment` that `classify_user` produces for a
concrete known identity carries the classification its thresholds assign
to its score. -/
theorem claim_C3_witness :
    (⟨"user-w", Classification.ALLOW, "Continue normally", 0.05, [], clock0⟩ :
        RiskAssessment).classification =
      (decisionFor modelKnown.risk_thresholds
        (⟨"user-w", Classification.ALLOW, "Continue normally", 0.05, [], clock0⟩ :
            RiskAssessment).risk_score).1 := by
  refine claim_C3_threshold_chain.2.2.2.2.2.2 modelKnown "user-w" emptyObs clock0 _ ?_
  unfold classify_user
  rw [calculate_risk_score_known modelKnown "user-w" emptyObs clock0 profile0
    (by simp [lookupProfile, modelKnown, assocLookup])]
  have h : total_deviation profile0 (extract_features clock0 emptyObs) = 0 := by
    unfold total_deviation
    rw [deviationLoop_spec]
    simp [featureOrder, devContribution, lookupStats, profile0, assocLookup, zScoreOf,
      stdFloored, stdFloor, extract_features, groupGet, emptyObs, clock0, rule_boost]
    norm_num
  have hfac : (deviationLoop profile0 (extract_features clock0 emptyObs)).1 ++
      rule_factors (extract_features clock0 emptyObs) = [] := by
    rw [deviationLoop_spec]
    simp [featureOrder, devFactorOpt, lookupStats, profile0, assocLookup,
      rule_factors, extract_features, groupGet, emptyObs, clock0]
    norm_num
  rw [h, hfac]
  have hs : clampScore 0 = 0.05 := by norm_num [clampScore]
  rw [hs]
  have hd : decisionFor modelKnown.risk_thresholds 0.05 =
      (Classification.ALLOW, "Continue normally") := by
    norm_num [decisionFor, modelKnown]
  simp [hd]

/-- C6 counterexample: the claim as frozen is false on the code.  Against
a baseline whose panic-gesture sample was constantly 0 (mean 0, std 0),
enabling the flag alone adds 10^6 + 5 to the total deviation — the
flag's own z-score through the floored std plus the +5 rule boost — not
exactly 5, and the score saturates at 1.0 instead of moving by 0.5. -/
theorem claim_C6_counterexample :
    total_deviation pPanicStd0 (extract_features clock0 obsPanic) = 1000005 ∧
      total_deviation pPanicStd0 (extract_features clock0 emptyObs) = 0 ∧
      (1000005 : ℚ) ≠ 0 + 5 ∧
      (risk_core pPanicStd0 (extract_features clock0 obsPanic)).1 = 1 ∧
      (risk_core pPanicStd0 (extract_features clock0 emptyObs)).1 = 0.05 := by
  have h1 : total_deviation pPanicStd0 (extract_features clock0 obsPanic) = 1000005 := by
    unfold total_deviation
    rw [deviationLoop_spec]
    simp [featureOrder, devContribution, lookupStats, pPanicStd0, assocLookup, zScoreOf,
      stdFloored, stdFloor, extract_features, groupGet, obsPanic, clock0, rule_boost]
    norm_num
  have h2 : total_deviation pPanicStd0 (extract_features clock0 emptyObs) = 0 := by
    unfold total_deviation
    rw [deviationLoop_spec]
    simp [featureOrder, devContribution, lookupStats, pPanicStd0, assocLookup, zScoreOf,
      stdFloored, stdFloor, extract_features, groupGet, emptyObs, clock0, rule_boost]
    norm_num
  refine ⟨h1, h2, by norm_num, ?_, ?_⟩
  · rw [risk_core_spec]
    dsimp only
    rw [h1]
    norm_num [clampScore]
  · rw [risk_core_spec]
    dsimp only
    rw [h2]
    norm_num [clampScore]

/-- C6 (amended): provided the panic-gesture feature's own baseline
deviation contribution is unchanged between the two sessions (so its
z-score stays at or below the trigger cutoff 2, as with a non-degenerate
baseline std), setting the flag to 1 while every other feature keeps its
value — in particular with all other features at their baseline means —
adds exactly 5 to the total deviation, shifting the normalized score by
5/10 = 0.5 before clamping.  Without that proviso the flag's own z-score
is also added (see the counterexample). -/
theorem claim_C6_panic_boost (p : UserProfile) (cur0 cur1 : FeatureName → ℚ)
    (hagree : ∀ g : FeatureName, g ≠ FeatureName.panic_gesture_triggered →
      cur1 g = cur0 g)
    (h0 : cur0 FeatureName.panic_gesture_triggered ≠ 1)
    (h1 : cur1 FeatureName.panic_gesture_triggered = 1)
    (hpanic : devContribution p cur1 FeatureName.panic_gesture_triggered =
      devContribution p cur0 FeatureName.panic_gesture_triggered) :
    total_deviation p cur1 = total_deviation p cur0 + 5 ∧
      total_deviation p cur1 / 10 = total_deviation p cur0 / 10 + 0.5 := by
  have hmap : featureOrder.map (devContribution p cur1) =
      featureOrder.map (devContribution p cur0) := by
    apply List.map_congr_left
    intro g _
    by_cases hg : g = FeatureName.panic_gesture_triggered
    · rw [hg]
      exact hpanic
    · exact devContribution_congr p cur1 cur0 g (hagree g hg)
  have hboost : rule_boost cur1 = rule_boost cur0 + 5 := by
    unfold rule_boost
    rw [hagree FeatureName.direct_to_sensitive (by decide),
        hagree FeatureName.location_familiarity (by decide),
        hagree FeatureName.tremor_signature (by decide),
        if_pos h1, if_neg h0]
    ring
  have htot : total_deviation p cur1 = total_deviation p cur0 + 5 := by
    rw [total_deviation_spec, total_deviation_spec, hmap, hboost]
    ring
  exact ⟨htot, by rw [htot]; ring⟩

/-- C6 witness: the exact +5 boost at a concrete baseline whose
panic-gesture std is 1, so the flag's own z-score is 1 and stays below
the cutoff. -/
theorem claim_C6_witness :
    total_deviation pPanicStd1 (extract_features clock0 obsPanic) =
      total_deviation pPanicStd1 (extract_features clock0 emptyObs) + 5 :=
  (claim_C6_panic_boost pPanicStd1 (extract_features clock0 emptyObs)
    (extract_features clock0 obsPanic)
    (fun g hg => by cases g <;> first | rfl | exact absurd rfl hg)
    (by simp [extract_features, emptyObs])
    rfl
    (by
      simp [devContribution, lookupStats, pPanicStd1, assocLookup, zScoreOf, stdFloored,
        stdFloor, extract_features, obsPanic, emptyObs, clock0]
      norm_num [abs_eq_max_neg, max_def])).1

/-- C7 counterexample: the claim as frozen is false on the code.  Moving
location familiarity from 0.25 to 3 takes it farther from its baseline
mean 1 while every other feature keeps its value, yet the risk score
drops from 0.2 to 0.05, because the move un-triggers the
unfamiliar-location rule boost. -/
theorem claim_C7_counterexample :
    |extract_features clock0 obsLocA FeatureName.location_familiarity - 1| <
        |extract_features clock0 obsLocB FeatureName.location_familiarity - 1| ∧
      extract_features clock0 obsLocB =
        Function.update (extract_features clock0 obsLocA)
          FeatureName.location_familiarity 3 ∧
      (calculate_risk_score modelLoc "u-loc" obsLocB clock0).score <
        (calculate_risk_score modelLoc "u-loc" obsLocA clock0).score := by
  refine ⟨?_, ?_, ?_⟩
  · norm_num [extract_features, groupGet, obsLocA, obsLocB, clock0, abs_eq_max_neg, max_def]
  · funext g
    cases g <;>
      simp [Function.update, extract_features, groupGet, obsLocA, obsLocB, clock0]
  · have ha : (calculate_risk_score modelLoc "u-loc" obsLocA clock0).score = 0.2 := by
      rw [calculate_risk_score_known modelLoc "u-loc" obsLocA clock0 pLoc
        (by simp [lookupProfile, modelLoc, assocLookup])]
      have h : total_deviation pLoc (extract_features clock0 obsLocA) = 2 := by
        unfold total_deviation
        rw [deviationLoop_spec]
        simp [featureOrder, devContribution, lookupStats, pLoc, assocLookup, zScoreOf,
          stdFloored, stdFloor, extract_features, groupGet, obsLocA, clock0, rule_boost]
        norm_num [abs_eq_max_neg, max_def]
      simp [RiskResult.score, h]
      norm_num [clampScore]
    have hb : (calculate_risk_score modelLoc "u-loc" obsLocB clock0).score = 0.05 := by
      rw [calculate_risk_score_known modelLoc "u-loc" obsLocB clock0 pLoc
        (by simp [lookupProfile, modelLoc, assocLookup])]
      have h : total_deviation pLoc (extract_features clock0 obsLocB) = 0 := by
        unfold total_deviation
        rw [deviationLoop_spec]
        simp [featureOrder, devContribution, lookupStats, pLoc, assocLookup, zScoreOf,
          stdFloored, stdFloor, extract_features, groupGet, obsLocB, clock0, rule_boost]
        norm_num [abs_eq_max_neg, max_def]
      simp [RiskResult.score, h]
      norm_num [clampScore]
    rw [ha, hb]
    norm_num

/-- C7 (amended): for every feature that the four fixed rules do not
inspect, increasing the absolute distance of that feature's current
value from its baseline mean while every other feature keeps its value
never decreases the risk score.  For the four rule-inspected features the
claim fails, because the move can un-trigger a rule boost (see the
counterexample). -/
theorem claim_C7_monotonicity (m : BehavioralAuthModel) (user_id : String)
    (o1 o2 : Observation) (c : Clock) (p : UserProfile) (f : FeatureName)
    (hp : lookupProfile m user_id = some p)
    (hf1 : f ≠ FeatureName.panic_gesture_triggered)
    (hf2 : f ≠ FeatureName.direct_to_sensitive)
    (hf3 : f ≠ FeatureName.location_familiarity)
    (hf4 : f ≠ FeatureName.tremor_signature)
    (hagree : ∀ g : FeatureName, g ≠ f →
      extract_features c o2 g = extract_features c o1 g)
    (hdist : ∀ b : FeatureStats, lookupStats p f = some b →
      |extract_features c o1 f - b.mean| ≤ |extract_features c o2 f - b.mean|) :
    (calculate_risk_score m user_id o1 c).score ≤
      (calculate_risk_score m user_id o2 c).score := by
  rw [calculate_risk_score_known m user_id o1 c p hp,
      calculate_risk_score_known m user_id o2 c p hp]
  show clampScore (total_deviation p (extract_features c o1)) ≤
    clampScore (total_deviation p (extract_features c o2))
  apply clampScore_mono
  rw [total_deviation_spec, total_deviation_spec]
  have hsum : (featureOrder.map (devContribution p (extract_features c o1))).sum ≤
      (featureOrder.map (devContribution p (extract_features c o2))).sum := by
    apply List.sum_le_sum
    intro g _
    by_cases hg : g = f
    · subst hg
      exact devContribution_mono p _ _ g hdist
    · have heq := devContribution_congr p (extract_features c o2)
        (extract_features c o1) g (hagree g hg)
      rw [heq]
  have hb : rule_boost (extract_features c o1) = rule_boost (extract_features c o2) := by
    unfold rule_boost
    rw [hagree FeatureName.panic_gesture_triggered (Ne.symm hf1),
        hagree FeatureName.direct_to_sensitive (Ne.symm hf2),
        hagree FeatureName.location_familiarity (Ne.symm hf3),
        hagree FeatureName.tremor_signature (Ne.symm hf4)]
  rw [hb]
  exact add_le_add_right hsum _

/-- C7 witness: monotonicity at the typing-speed feature, whose distance
from its baseline mean grows from 1 to 5. -/
theorem claim_C7_witness :
    (calculate_risk_score modelTyping "u-typing" obsTyping1 clock0).score ≤
      (calculate_risk_score modelTyping "u-typing" obsTyping5 clock0).score :=
  claim_C7_monotonicity modelTyping "u-typing" obsTyping1 obsTyping5 clock0 pTyping
    FeatureName.avg_typing_speed
    (by simp [lookupProfile, modelTyping, assocLookup])
    (by decide) (by decide) (by decide) (by decide)
    (fun g hg => by cases g <;> first | rfl | exact absurd rfl hg)
    (fun b hb => by
      have hb2 : some (⟨0, 1⟩ : FeatureStats) = some b := hb
      injection hb2 with h
      rw [← h]
      norm_num [extract_features, groupGet, obsTyping1, obsTyping5, clock0,
        abs_eq_max_neg, max_def])
